import Mathlib

/-!
Shallow embedding of `src/app.py` (Scent Mood Matcher) for checking the
natural-language specification against the code.

The program's logic is: a static note catalog (`FRAGRANCE_NOTES`), an AI
client (`get_ai_recommendation`) that extracts a JSON object from a free-form
text reply, a persistence call (`save_to_supabase`), the generate-button
handler, and the history panel.  External collaborators (the HTTP transport,
`json.loads`, the Python `dict` semantics used by the code) are modelled
explicitly below; the app's own control flow is translated line by line.
-/

namespace ScentApp

/-- JSON values, as produced by Python's `json.loads`.  Numbers are kept as
their source lexeme (the program never does arithmetic on them). -/
inductive JVal where
  | jstr (s : String)
  | jnum (lexeme : String)
  | jbool (b : Bool)
  | jnull
  | jarr (elems : List JVal)
  | jobj (fields : List (String × JVal))

/-- Python `dict` insertion on an association list: overwriting an existing
key updates the value in place (Python keeps the original position), a new
key is appended at the end (Python dicts are insertion ordered). -/
def dictInsert (k : String) (v : JVal) : List (String × JVal) → List (String × JVal)
  | [] => [(k, v)]
  | kv :: rest => if kv.1 = k then (k, v) :: rest else kv :: dictInsert k v rest

/-- Inserting every entry of `entries` (left to right) into the dict `d`;
models Python `\x7b**d, **entries\x7d`-style merging where later keys win. -/
def dictExtend (d : List (String × JVal)) (entries : List (String × JVal)) : List (String × JVal) :=
  entries.foldl (fun acc kv => dictInsert kv.1 kv.2 acc) d

/-- JSON whitespace accepted between tokens by `json.loads`. -/
def isJsonWs (c : Char) : Bool :=
  c == ' ' || c == '\t' || c == '\n' || c == '\r'

def skipWs (cs : List Char) : List Char :=
  cs.dropWhile isJsonWs

/-- Value of a hexadecimal digit, for `\u` escapes. -/
def hexVal (c : Char) : Option Nat :=
  if c.isDigit then some (c.toNat - 48)
  else if 97 ≤ c.toNat ∧ c.toNat ≤ 102 then some (c.toNat - 87)
  else if 65 ≤ c.toNat ∧ c.toNat ≤ 70 then some (c.toNat - 55)
  else none

/-- Single-character escapes of JSON strings. -/
def escChar : Char → Option Char
  | '"' => some '"'
  | '\\' => some '\\'
  | '/' => some '/'
  | 'b' => some (Char.ofNat 8)
  | 'f' => some (Char.ofNat 12)
  | 'n' => some '\n'
  | 'r' => some '\r'
  | 't' => some '\t'
  | _ => none

/-- Body of a JSON string after the opening quote: returns the decoded
content and the remaining input after the closing quote.  Raw control
characters are rejected, as `json.loads` does in strict mode. -/
def parseStringBody : List Char → Option (List Char × List Char)
  | [] => none
  | '"' :: rest => some ([], rest)
  | '\\' :: 'u' :: a :: b :: c :: d :: rest => do
    let h1 ← hexVal a
    let h2 ← hexVal b
    let h3 ← hexVal c
    let h4 ← hexVal d
    let (s, r) ← parseStringBody rest
    some (Char.ofNat (h1 * 4096 + h2 * 256 + h3 * 16 + h4) :: s, r)
  | '\\' :: e :: rest => do
    let c ← escChar e
    let (s, r) ← parseStringBody rest
    some (c :: s, r)
  | c :: rest =>
    if c.toNat < 32 then none
    else do
      let (s, r) ← parseStringBody rest
      some (c :: s, r)

def digitSpan (cs : List Char) : List Char × List Char :=
  (cs.takeWhile Char.isDigit, cs.dropWhile Char.isDigit)

/-- Integer part of a JSON number: `0` or a nonzero digit followed by digits. -/
def parseIntPart : List Char → Option (List Char × List Char)
  | [] => none
  | c :: rest =>
    if c == '0' then some ([c], rest)
    else if c.isDigit then
      let s := digitSpan rest
      some (c :: s.1, s.2)
    else none

/-- Optional fractional part `.digits` of a JSON number. -/
def parseFracPart (cs : List Char) : Option (List Char × List Char) :=
  match cs with
  | '.' :: rest =>
    let s := digitSpan rest
    if s.1.isEmpty then none else some ('.' :: s.1, s.2)
  | _ => some ([], cs)

/-- Optional exponent part of a JSON number. -/
def parseExpPart (cs : List Char) : Option (List Char × List Char) :=
  match cs with
  | e :: rest =>
    if e == 'e' || e == 'E' then
      match rest with
      | s :: rest2 =>
        if s == '+' || s == '-' then
          let d := digitSpan rest2
          if d.1.isEmpty then none else some (e :: s :: d.1, d.2)
        else
          let d := digitSpan rest
          if d.1.isEmpty then none else some (e :: d.1, d.2)
      | [] => none
    else some ([], cs)
  | [] => some ([], cs)

/-- Lexeme of a JSON number (grammar `-? (0 | [1-9][0-9]*) frac? exp?`). -/
def parseNumberLex (cs : List Char) : Option (List Char × List Char) :=
  let p : List Char × List Char :=
    match cs with
    | '-' :: rest => (['-'], rest)
    | _ => ([], cs)
  match parseIntPart p.2 with
  | none => none
  | some (ip, cs2) =>
    match parseFracPart cs2 with
    | none => none
    | some (fp, cs3) =>
      match parseExpPart cs3 with
      | none => none
      | some (ep, cs4) => some (p.1 ++ ip ++ fp ++ ep, cs4)

mutual

/-- Recursive-descent JSON value, fuelled to make termination evident.
Objects are collapsed with `dictExtend` so that, as in Python, a duplicated
key keeps only the last binding. -/
def parseValue (fuel : Nat) (cs : List Char) : Option (JVal × List Char) :=
  match fuel with
  | 0 => none
  | Nat.succ f =>
    match skipWs cs with
    | [] => none
    | '"' :: rest => (parseStringBody rest).map fun p => (JVal.jstr (String.mk p.1), p.2)
    | '\x7b' :: rest =>
      match skipWs rest with
      | '\x7d' :: rest2 => some (JVal.jobj [], rest2)
      | _ => (parseMembers f rest).map fun p => (JVal.jobj (dictExtend [] p.1), p.2)
    | '[' :: rest =>
      match skipWs rest with
      | ']' :: rest2 => some (JVal.jarr [], rest2)
      | _ => (parseElems f rest).map fun p => (JVal.jarr p.1, p.2)
    | 't' :: 'r' :: 'u' :: 'e' :: rest => some (JVal.jbool true, rest)
    | 'f' :: 'a' :: 'l' :: 's' :: 'e' :: rest => some (JVal.jbool false, rest)
    | 'n' :: 'u' :: 'l' :: 'l' :: rest => some (JVal.jnull, rest)
    | c :: rest =>
      if c == '-' || c.isDigit then
        (parseNumberLex (c :: rest)).map fun p => (JVal.jnum (String.mk p.1), p.2)
      else none

/-- One or more `"key": value` members of a JSON object, ended by `\x7d`. -/
def parseMembers (fuel : Nat) (cs : List Char) : Option (List (String × JVal) × List Char) :=
  match fuel with
  | 0 => none
  | Nat.succ f =>
    match skipWs cs with
    | '"' :: rest =>
      match parseStringBody rest with
      | none => none
      | some (key, rest2) =>
        match skipWs rest2 with
        | ':' :: rest3 =>
          match parseValue f rest3 with
          | none => none
          | some (v, rest4) =>
            match skipWs rest4 with
            | ',' :: rest5 =>
              match parseMembers f rest5 with
              | none => none
              | some (fs, rest6) => some ((String.mk key, v) :: fs, rest6)
            | '\x7d' :: rest5 => some ([(String.mk key, v)], rest5)
            | _ => none
        | _ => none
    | _ => none

/-- One or more elements of a JSON array, ended by `]`. -/
def parseElems (fuel : Nat) (cs : List Char) : Option (List JVal × List Char) :=
  match fuel with
  | 0 => none
  | Nat.succ f =>
    match parseValue f cs with
    | none => none
    | some (v, rest) =>
      match skipWs rest with
      | ',' :: rest2 =>
        match parseElems f rest2 with
        | none => none
        | some (vs, rest3) => some (v :: vs, rest3)
      | ']' :: rest2 => some ([v], rest2)
      | _ => none

end

/-- Model of Python `json.loads`: parse one value, then require only
whitespace to remain; any failure is the exception path (here `none`).
The fuel `3 * length + 3` dominates the recursion depth, which grows by at
most three frames per consumed character. -/
def json_loads (cs : List Char) : Option JVal :=
  match parseValue (3 * cs.length + 3) cs with
  | some (v, rest) => if (skipWs rest).isEmpty then some v else none
  | none => none

/-- Index of the first element satisfying `p`, or `none`. -/
def scanIdx (p : Char → Bool) : List Char → Option Nat
  | [] => none
  | c :: rest => if p c then some 0 else (scanIdx p rest).map Nat.succ

/-- Python `str.find`: index of the first occurrence of `ch`, `-1` if absent. -/
def pyFind (cs : List Char) (ch : Char) : Int :=
  match scanIdx (fun c => c == ch) cs with
  | some i => (i : Int)
  | none => -1

/-- Python `str.rfind`: index of the last occurrence of `ch`, `-1` if absent. -/
def pyRfind (cs : List Char) (ch : Char) : Int :=
  match scanIdx (fun c => c == ch) cs.reverse with
  | some i => (cs.length : Int) - 1 - (i : Int)
  | none => -1

/-- Python slice `s[a:b]` for the nonnegative bounds used by the program. -/
def pySlice (cs : List Char) (a b : Int) : List Char :=
  (cs.drop a.toNat).take (b - a).toNat

/-- Outcome of `response.json()` plus the indexing chain
`result["candidates"][0]["content"]["parts"][0]["text"]` (app.py line 77):
the body may fail to parse as JSON, the expected structure may be missing
(a KeyError or IndexError), or the text blob is present. -/
inductive AIBody where
  | notJson
  | badShape
  | text (t : String)

/-- Outcome of the `requests.post` call (app.py lines 61-73): either the
transport raises, or an HTTP response with a status code and body arrives. -/
inductive AIOutcome where
  | connectionError
  | response (status : Nat) (body : AIBody)

/-- JSON extraction from the AI text reply (app.py lines 79-84): take the
substring from the first `\x7b` to the last `\x7d` inclusive and parse it;
`none` both when the brace test fails (falling through to `return None`) and
when `json.loads` raises (caught by the enclosing `except`). -/
def extract_json (t : String) : Option JVal :=
  let cs := t.toList
  let json_start := pyFind cs '\x7b'
  let json_end := pyRfind cs '\x7d' + 1
  if json_start ≠ -1 ∧ json_end > json_start then
    json_loads (pySlice cs json_start json_end)
  else none

/-- `get_ai_recommendation` (app.py lines 38-87) as a function of the
transport outcome.  Every exception path (connection error, body not JSON,
missing response structure, unparsable candidate) is caught by the single
`try/except` and becomes the return value `None`; a non-200 status skips the
body entirely and falls through to `return None`. -/
def get_ai_recommendation : AIOutcome → Option JVal
  | AIOutcome.connectionError => none
  | AIOutcome.response status body =>
    if status = 200 then
      match body with
      | AIBody.notJson => none
      | AIBody.badShape => none
      | AIBody.text t => extract_json t
    else none

/-- The top/middle/base note lists of one mood. -/
structure NoteSet where
  top : List String
  middle : List String
  base : List String
deriving DecidableEq

/-- The static note catalog (app.py lines 20-36); `FRAGRANCE_NOTES[mood]`
is a dict lookup, so unknown moods give `none` (a KeyError in Python). -/
def FRAGRANCE_NOTES : String → Option NoteSet
  | "relaxed" => some
      { top := ["Lavender", "Chamomile", "Bergamot", "Sweet Orange"]
        middle := ["Ylang Ylang", "Rose", "Jasmine", "Neroli"]
        base := ["Sandalwood", "Vanilla", "Cedarwood", "Frankincense"] }
  | "energized" => some
      { top := ["Peppermint", "Eucalyptus", "Lemon", "Grapefruit"]
        middle := ["Rosemary", "Basil", "Ginger", "Pine"]
        base := ["Vetiver", "Patchouli", "Amber", "Musk"] }
  | "romantic" => some
      { top := ["Rose", "Peony", "Litchi", "Blackcurrant"]
        middle := ["Jasmine", "Tuberose", "Magnolia", "Iris"]
        base := ["Musk", "Amber", "Patchouli", "Vanilla"] }
  | _ => none

/-- Whether a JSON number lexeme denotes zero: its mantissa has no nonzero
digit (the exponent cannot make a nonzero mantissa zero). -/
def jnumZero (lexeme : String) : Bool :=
  (lexeme.toList.takeWhile fun c => !(c == 'e' || c == 'E')).all
    fun c => c == '0' || c == '.' || c == '-'

/-- Python truthiness of a parsed JSON value: `None`, `False`, zero, and
empty strings/lists/dicts are falsy. -/
def truthy : JVal → Bool
  | JVal.jnull => false
  | JVal.jbool b => b
  | JVal.jstr s => !s.isEmpty
  | JVal.jnum lexeme => !jnumZero lexeme
  | JVal.jarr elems => !elems.isEmpty
  | JVal.jobj fields => !fields.isEmpty

/-- Truthiness of the value `get_ai_recommendation` returned (`None` falsy). -/
def optTruthy : Option JVal → Bool
  | none => false
  | some v => truthy v

/-- The merged record `\x7b"mood": mood, "product_type": product_type,
**recommendation\x7d` (app.py lines 170-174): the AI recommendation's
entries are inserted after the two user selections, so an AI key named
`mood` or `product_type` overwrites the user's value. -/
def data_to_save (mood product_type : String) (recommendation : List (String × JVal)) : List (String × JVal) :=
  dictExtend (dictInsert ("product_type") (JVal.jstr product_type) (dictInsert ("mood") (JVal.jstr mood) [])) recommendation

/-- The row `save_to_supabase` inserts (app.py lines 92-100). -/
structure SavedRow where
  mood : JVal
  product_type : JVal
  product_name : JVal
  description : JVal
  blend_formula : JVal
  best_time : JVal
  created_at : Nat

/-- Outcome of the remote `insert(...).execute()` call: it succeeds, the
transport raises, or the remote side rejects the write. -/
inductive SaveOutcome where
  | ok
  | transportError
  | remoteRejection

/-- Building the row to insert: each `data[...]` access raises a KeyError
(hence `none`) when the key is absent.  `created_at` is the UTC timestamp,
modelled as a number ordered like its ISO-8601 string. -/
def insert_row (data : List (String × JVal)) (now : Nat) : Option SavedRow := do
  let m ← List.lookup ("mood") data
  let pt ← List.lookup ("product_type") data
  let name ← List.lookup ("name") data
  let desc ← List.lookup ("description") data
  let bf ← List.lookup ("blend_formula") data
  let bt ← List.lookup ("best_time") data
  pure { mood := m, product_type := pt, product_name := name, description := desc,
         blend_formula := bf, best_time := bt, created_at := now }

/-- `save_to_supabase` (app.py lines 89-104): `True` only when the row is
built and the remote call succeeds; every exception (KeyError while building
the row, transport error, remote rejection) is caught and returns `False`. -/
def save_to_supabase (data : List (String × JVal)) (now : Nat) (o : SaveOutcome) : Bool :=
  match insert_row data now with
  | none => false
  | some _ =>
    match o with
    | SaveOutcome.ok => true
    | SaveOutcome.transportError => false
    | SaveOutcome.remoteRejection => false

/-- What the generate-button handler leaves on screen. -/
structure GenerateView where
  /-- the recommendation record rendered in the main column (name,
  description, blend formula, best time), if any -/
  displayed : Option (List (String × JVal))
  /-- whether the "Saved to your collection!" message is shown -/
  saved_msg : Bool
  /-- the record offered by the download button, if any -/
  download : Option (List (String × JVal))

/-- The generate-button handler (app.py lines 153-185) as a function of the
AI result and the save outcome.  `none` models an uncaught exception
(rendering `recommendation[...]` with a missing key, or `**recommendation`
on a non-dict), which aborts the run; a falsy recommendation renders
nothing.  Rendering happens before the save call, so the view's
`displayed` and `download` fields do not depend on the save outcome. -/
def generate_handler (mood product_type : String) (recommendation : Option JVal)
    (o : SaveOutcome) (now : Nat) : Option GenerateView :=
  if optTruthy recommendation then
    match recommendation with
    | some (JVal.jobj fs) =>
      if (List.lookup ("name") fs).isSome && (List.lookup ("description") fs).isSome
          && (List.lookup ("blend_formula") fs).isSome && (List.lookup ("best_time") fs).isSome then
        let data := data_to_save mood product_type fs
        some { displayed := some fs
               saved_msg := save_to_supabase data now o
               download := some data }
      else none
    | _ => none
  else
    some { displayed := none, saved_msg := false, download := none }

/-- One stored row as read back by the history panel. -/
structure HistoryRow where
  mood : String
  product_type : String
  product_name : String
  description : String
  blend_formula : String
  best_time : String
  /-- creation timestamp, modelled as a number ordered like its ISO-8601
  string -/
  created_at : Nat
deriving DecidableEq

/-- Rows ordered by `created_at` descending. -/
def createdDescRel (a b : HistoryRow) : Prop :=
  b.created_at ≤ a.created_at

instance : DecidableRel createdDescRel := fun a b =>
  Nat.decLe b.created_at a.created_at

instance : IsTotal HistoryRow createdDescRel :=
  ⟨fun a b => Nat.le_total b.created_at a.created_at⟩

instance : IsTrans HistoryRow createdDescRel :=
  ⟨fun _ _ _ hab hbc => Nat.le_trans hbc hab⟩

/-- Modelled from the spec: the remote table service is not part of this
repository; its documented query semantics (`select all, order by
created_at desc, limit n`, spec section 6) is modelled as sorting the
stored rows by `created_at` descending and taking the first `n`. -/
def recent (store : List HistoryRow) (limit : Nat) : List HistoryRow :=
  (List.insertionSort createdDescRel store).take limit

/-- The query the history panel issues (app.py line 192): order by
`created_at` descending, limit 5. -/
def fetch_history (store : List HistoryRow) : List HistoryRow :=
  recent store 5

/-- Outcome of the history fetch: the remote call raises, or returns the
row list `response.data`. -/
inductive FetchOutcome where
  | failure
  | rows (data : List HistoryRow)

/-- What the history panel shows. -/
inductive HistoryDisplay where
  /-- one expander per returned row -/
  | entries (items : List HistoryRow)
  /-- the "No recommendations yet. Create your first blend!" info box -/
  | emptyInfo
deriving DecidableEq

/-- The history panel (app.py lines 190-202): a falsy `response.data` shows
the info box, and the `except` branch shows the identical info box, so a
fetch failure is indistinguishable from an empty history. -/
def history_panel : FetchOutcome → HistoryDisplay
  | FetchOutcome.failure => HistoryDisplay.emptyInfo
  | FetchOutcome.rows data =>
    if data.isEmpty then HistoryDisplay.emptyInfo else HistoryDisplay.entries data

/-- An opening brace as a string. -/
def lb : String := "\x7b"

/-- A closing brace as a string. -/
def rb : String := "\x7d"

/-- The transport text of the spec's extraction test case (section 8):
prose wrapping a complete four-field JSON object. -/
def sampleOkText : String :=
  "Sure! " ++ lb ++ "\"name\":\"Calm Breeze\",\"description\":\"x\",\"blend_formula\":\"1:2:3\",\"best_time\":\"evening\"" ++ rb ++ " enjoy!"

/-- A transport text whose candidate substring is well-formed JSON but
carries only one of the four required fields. -/
def partialText : String := lb ++ "\"name\":\"A\"" ++ rb

/-- A transport text containing no brace at all. -/
def noBraceText : String := "no braces here"

/-- A complete recommendation record with all four AI-supplied fields. -/
def demoFields : List (String × JVal) :=
  [(("name"), JVal.jstr ("N")), (("description"), JVal.jstr ("D")),
   (("blend_formula"), JVal.jstr ("F")), (("best_time"), JVal.jstr ("T"))]

/-- An AI record that itself contains a `mood` key. -/
def demoOverrideFields : List (String × JVal) :=
  [(("mood"), JVal.jstr ("custom")), (("name"), JVal.jstr ("N"))]

/-! ### Helper lemmas -/

theorem scanIdx_some_get (p : Char → Bool) (cs : List Char) (i : Nat)
    (h : scanIdx p cs = some i) : ∃ hlt : i < cs.length, p (cs.get ⟨i, hlt⟩) = true := by
  induction cs generalizing i with
  | nil => simp [scanIdx] at h
  | cons c rest ih =>
    rw [scanIdx] at h
    by_cases hp : p c
    · rw [if_pos hp] at h
      injection h with h
      subst h
      exact ⟨Nat.succ_pos _, hp⟩
    · rw [if_neg hp] at h
      cases hsc : scanIdx p rest with
      | none => rw [hsc] at h; simp at h
      | some j =>
        rw [hsc] at h
        simp only [Option.map_some'] at h
        injection h with h
        subst h
        obtain ⟨hlt, hg⟩ := ih j hsc
        exact ⟨Nat.succ_lt_succ hlt, by simpa using hg⟩

theorem pyFind_nonneg (cs : List Char) (ch : Char) (h : pyFind cs ch ≠ -1) :
    0 ≤ pyFind cs ch := by
  unfold pyFind
  cases hf : scanIdx (fun c => c == ch) cs with
  | none => exfalso; apply h; unfold pyFind; rw [hf]
  | some i => exact Int.natCast_nonneg i

theorem pyFind_ne_pyRfind (cs : List Char) (c1 c2 : Char) (hne : c1 ≠ c2)
    (h1 : pyFind cs c1 ≠ -1) (h2 : pyRfind cs c2 ≠ -1) :
    pyFind cs c1 ≠ pyRfind cs c2 := by
  intro heq
  cases hf : scanIdx (fun c => c == c1) cs with
  | none => apply h1; unfold pyFind; rw [hf]
  | some i =>
    cases hr : scanIdx (fun c => c == c2) cs.reverse with
    | none => apply h2; unfold pyRfind; rw [hr]
    | some j =>
      have hfe : pyFind cs c1 = (i : Int) := by unfold pyFind; rw [hf]
      have hre : pyRfind cs c2 = (cs.length : Int) - 1 - (j : Int) := by
        unfold pyRfind; rw [hr]
      rw [hfe, hre] at heq
      obtain ⟨hi, hgi⟩ := scanIdx_some_get _ _ _ hf
      obtain ⟨hj, hgj⟩ := scanIdx_some_get _ _ _ hr
      have hjlen : j < cs.length := by simpa using hj
      have e1 : cs.get ⟨i, hi⟩ = c1 := by simpa using hgi
      have e2 : cs.reverse.get ⟨j, hj⟩ = c2 := by simpa using hgj
      rw [List.get_eq_getElem, List.getElem_reverse] at e2
      have hidx : i = cs.length - 1 - j := by omega
      subst hidx
      apply hne
      rw [← e1, List.get_eq_getElem]
      exact e2

theorem lookup_dictInsert_self (k : String) (v : JVal) (d : List (String × JVal)) :
    List.lookup k (dictInsert k v d) = some v := by
  induction d with
  | nil => simp [dictInsert, List.lookup]
  | cons kv rest ih =>
    rw [dictInsert]
    by_cases h : kv.1 = k
    · rw [if_pos h]; simp [List.lookup]
    · rw [if_neg h]
      cases kv with
      | mk k1 v1 =>
        have hb : (k == k1) = false := beq_false_of_ne fun e => h e.symm
        simp [List.lookup, hb, ih]

theorem lookup_dictInsert_ne (k k2 : String) (v : JVal) (d : List (String × JVal))
    (h : k ≠ k2) : List.lookup k (dictInsert k2 v d) = List.lookup k d := by
  induction d with
  | nil => simp [dictInsert, List.lookup, beq_false_of_ne h]
  | cons kv rest ih =>
    rw [dictInsert]
    cases kv with
    | mk k1 v1 =>
      by_cases h1 : (k1, v1).1 = k2
      · rw [if_pos h1]
        simp only at h1
        subst h1
        simp [List.lookup, beq_false_of_ne h]
      · rw [if_neg h1]
        by_cases hk : k = k1
        · subst hk; simp [List.lookup]
        · simp [List.lookup, beq_false_of_ne hk, ih]

theorem lookup_dictExtend_not_mem (entries : List (String × JVal))
    (d : List (String × JVal)) (k : String) (h : k ∉ entries.map Prod.fst) :
    List.lookup k (dictExtend d entries) = List.lookup k d := by
  induction entries generalizing d with
  | nil => rfl
  | cons kv rest ih =>
    simp only [List.map_cons, List.mem_cons, not_or] at h
    obtain ⟨h1, h2⟩ := h
    show List.lookup k (dictExtend (dictInsert kv.1 kv.2 d) rest) = _
    rw [ih _ h2, lookup_dictInsert_ne _ _ _ _ h1]

theorem lookup_dictExtend_mem (entries : List (String × JVal))
    (d : List (String × JVal)) (k : String) (v : JVal)
    (hnd : (entries.map Prod.fst).Nodup) (hmem : (k, v) ∈ entries) :
    List.lookup k (dictExtend d entries) = some v := by
  induction entries generalizing d with
  | nil => simp at hmem
  | cons kv rest ih =>
    rw [List.map_cons, List.nodup_cons] at hnd
    obtain ⟨hh, ht⟩ := hnd
    rcases List.mem_cons.mp hmem with he | hm
    · subst he
      show List.lookup k (dictExtend (dictInsert k v d) rest) = some v
      rw [lookup_dictExtend_not_mem _ _ _ (by simpa using hh), lookup_dictInsert_self]
    · show List.lookup k (dictExtend (dictInsert kv.1 kv.2 d) rest) = some v
      exact ih (dictInsert kv.1 kv.2 d) ht hm

theorem lookup_dictExtend_isSome (entries : List (String × JVal))
    (d : List (String × JVal)) (k : String) (h : k ∈ entries.map Prod.fst) :
    (List.lookup k (dictExtend d entries)).isSome = true := by
  induction entries generalizing d with
  | nil => simp at h
  | cons kv rest ih =>
    by_cases hk : k ∈ rest.map Prod.fst
    · show (List.lookup k (dictExtend (dictInsert kv.1 kv.2 d) rest)).isSome = true
      exact ih (dictInsert kv.1 kv.2 d) hk
    · have h1 : k = kv.1 := by
        rw [List.map_cons] at h
        rcases List.mem_cons.mp h with e | hr
        · exact e
        · exact absurd hr hk
      show (List.lookup k (dictExtend (dictInsert kv.1 kv.2 d) rest)).isSome = true
      rw [lookup_dictExtend_not_mem _ _ _ hk, h1, lookup_dictInsert_self]
      rfl

theorem mem_keys_of_lookup (k : String) (fs : List (String × JVal))
    (h : (List.lookup k fs).isSome = true) : k ∈ fs.map Prod.fst := by
  induction fs with
  | nil => simp [List.lookup] at h
  | cons kv rest ih =>
    cases kv with
    | mk k1 v1 =>
      by_cases hk : k = k1
      · subst hk; simp
      · rw [List.lookup] at h
        rw [beq_false_of_ne hk] at h
        simp only [List.map_cons, List.mem_cons]
        exact Or.inr (ih h)

theorem insert_row_mood (data : List (String × JVal)) (now : Nat) (row : SavedRow)
    (h : insert_row data now = some row) :
    List.lookup ("mood") data = some row.mood := by
  unfold insert_row at h
  simp only [bind, Option.bind_eq_some, pure, Option.some.injEq] at h
  obtain ⟨m, hm, pt, hpt, nm, hnm, ds, hds, bf, hbf, bt, hbt, hrow⟩ := h
  subst hrow
  exact hm

theorem insert_row_isSome (mood pt : String) (fs : List (String × JVal)) (now : Nat)
    (h1 : (List.lookup ("name") fs).isSome = true)
    (h2 : (List.lookup ("description") fs).isSome = true)
    (h3 : (List.lookup ("blend_formula") fs).isSome = true)
    (h4 : (List.lookup ("best_time") fs).isSome = true) :
    (insert_row (data_to_save mood pt fs) now).isSome = true := by
  have hmood : (List.lookup ("mood") (data_to_save mood pt fs)).isSome = true := by
    by_cases hk : ("mood" : String) ∈ fs.map Prod.fst
    · exact lookup_dictExtend_isSome fs _ _ hk
    · unfold data_to_save
      rw [lookup_dictExtend_not_mem _ _ _ hk]
      rfl
  have hpt : (List.lookup ("product_type") (data_to_save mood pt fs)).isSome = true := by
    by_cases hk : ("product_type" : String) ∈ fs.map Prod.fst
    · exact lookup_dictExtend_isSome fs _ _ hk
    · unfold data_to_save
      rw [lookup_dictExtend_not_mem _ _ _ hk]
      rfl
  have hn : (List.lookup ("name") (data_to_save mood pt fs)).isSome = true :=
    lookup_dictExtend_isSome fs _ _ (mem_keys_of_lookup _ _ h1)
  have hd : (List.lookup ("description") (data_to_save mood pt fs)).isSome = true :=
    lookup_dictExtend_isSome fs _ _ (mem_keys_of_lookup _ _ h2)
  have hb : (List.lookup ("blend_formula") (data_to_save mood pt fs)).isSome = true :=
    lookup_dictExtend_isSome fs _ _ (mem_keys_of_lookup _ _ h3)
  have ht : (List.lookup ("best_time") (data_to_save mood pt fs)).isSome = true :=
    lookup_dictExtend_isSome fs _ _ (mem_keys_of_lookup _ _ h4)
  obtain ⟨a1, e1⟩ := Option.isSome_iff_exists.mp hmood
  obtain ⟨a2, e2⟩ := Option.isSome_iff_exists.mp hpt
  obtain ⟨a3, e3⟩ := Option.isSome_iff_exists.mp hn
  obtain ⟨a4, e4⟩ := Option.isSome_iff_exists.mp hd
  obtain ⟨a5, e5⟩ := Option.isSome_iff_exists.mp hb
  obtain ⟨a6, e6⟩ := Option.isSome_iff_exists.mp ht
  simp [insert_row, e1, e2, e3, e4, e5, e6]

/-! ### The claims -/

/-- C1, as stated, is false of the code: `get_ai_recommendation` performs no
field validation at all, so a well-formed JSON candidate missing three of
the four required fields is returned as a partial record instead of failing.
Here the transport text `\x7b"name":"A"\x7d` yields the one-field record. -/
theorem c1_counterexample :
    get_ai_recommendation (AIOutcome.response 200 (AIBody.text partialText)) =
      some (JVal.jobj [(("name"), JVal.jstr ("A"))]) := rfl

/-- C1 amended: whenever the extracted candidate substring parses as
well-formed JSON, `get_ai_recommendation` returns the parsed object as-is,
with no validation of the four AI-supplied fields: records with missing or
empty fields are returned unchanged, and no failure signal distinct from
`None` exists. -/
theorem c1_no_field_validation (t : String) (fs : List (String × JVal))
    (h : extract_json t = some (JVal.jobj fs)) :
    get_ai_recommendation (AIOutcome.response 200 (AIBody.text t)) = some (JVal.jobj fs) := by
  simpa [get_ai_recommendation] using h

/-- Witness for C1's amended theorem at the one-field record. -/
theorem c1_no_field_validation_witness :
    extract_json partialText = some (JVal.jobj [(("name"), JVal.jstr ("A"))]) ∧
    get_ai_recommendation (AIOutcome.response 200 (AIBody.text partialText)) =
      some (JVal.jobj [(("name"), JVal.jstr ("A"))]) :=
  ⟨rfl, c1_no_field_validation partialText _ rfl⟩

/-- C2: on a 200 response whose brace test passes, `get_ai_recommendation`
parses exactly the substring from the first `\x7b` to the last `\x7d`
inclusive; and on the spec's sample transport text it returns the
four-field record `\x7bname: Calm Breeze, description: x, blend_formula:
1:2:3, best_time: evening\x7d`. -/
theorem c2_candidate_extraction (t : String)
    (h1 : pyFind t.toList '\x7b' ≠ -1)
    (h2 : pyRfind t.toList '\x7d' + 1 > pyFind t.toList '\x7b') :
    get_ai_recommendation (AIOutcome.response 200 (AIBody.text t)) =
      json_loads (pySlice t.toList (pyFind t.toList '\x7b') (pyRfind t.toList '\x7d' + 1)) ∧
    get_ai_recommendation (AIOutcome.response 200 (AIBody.text sampleOkText)) =
      some (JVal.jobj [(("name"), JVal.jstr ("Calm Breeze")), (("description"), JVal.jstr ("x")),
        (("blend_formula"), JVal.jstr ("1:2:3")), (("best_time"), JVal.jstr ("evening"))]) := by
  constructor
  · have e : get_ai_recommendation (AIOutcome.response 200 (AIBody.text t)) = extract_json t := rfl
    rw [e]
    simp only [extract_json]
    rw [if_pos ⟨h1, h2⟩]
  · rfl

/-- Witness for C2 at the spec's sample transport text. -/
theorem c2_candidate_extraction_witness :
    (pyFind sampleOkText.toList '\x7b' ≠ -1 ∧
      pyRfind sampleOkText.toList '\x7d' + 1 > pyFind sampleOkText.toList '\x7b') ∧
    get_ai_recommendation (AIOutcome.response 200 (AIBody.text sampleOkText)) =
      json_loads (pySlice sampleOkText.toList (pyFind sampleOkText.toList '\x7b')
        (pyRfind sampleOkText.toList '\x7d' + 1)) :=
  ⟨⟨by decide, by decide⟩, (c2_candidate_extraction sampleOkText (by decide) (by decide)).1⟩

/-- C3: on a 200 response, if the text has no `\x7b`, or no `\x7d`, or the
last `\x7d` is at or before the first `\x7b`, or the candidate substring
does not parse as JSON, `get_ai_recommendation` returns the failure value
`None`. -/
theorem c3_malformed_gives_failure (t : String)
    (h : pyFind t.toList '\x7b' = -1 ∨ pyRfind t.toList '\x7d' = -1 ∨
         pyRfind t.toList '\x7d' ≤ pyFind t.toList '\x7b' ∨
         json_loads (pySlice t.toList (pyFind t.toList '\x7b')
           (pyRfind t.toList '\x7d' + 1)) = none) :
    get_ai_recommendation (AIOutcome.response 200 (AIBody.text t)) = none := by
  have e : get_ai_recommendation (AIOutcome.response 200 (AIBody.text t)) = extract_json t := rfl
  rw [e]
  simp only [extract_json]
  by_cases hc : pyFind t.toList '\x7b' ≠ -1 ∧ pyRfind t.toList '\x7d' + 1 > pyFind t.toList '\x7b'
  · rw [if_pos hc]
    obtain ⟨hne, hgt⟩ := hc
    rcases h with h | h | h | h
    · exact absurd h hne
    · exfalso
      have := pyFind_nonneg t.toList '\x7b' hne
      omega
    · exfalso
      have hfnn := pyFind_nonneg t.toList '\x7b' hne
      have hrne : pyRfind t.toList '\x7d' ≠ -1 := by omega
      exact pyFind_ne_pyRfind t.toList '\x7b' '\x7d' (by decide) hne hrne (by omega)
    · exact h
  · rw [if_neg hc]

/-- Witness for C3 at a text with no opening brace. -/
theorem c3_malformed_gives_failure_witness :
    (pyFind noBraceText.toList '\x7b' = -1) ∧
    get_ai_recommendation (AIOutcome.response 200 (AIBody.text noBraceText)) = none :=
  ⟨by decide, c3_malformed_gives_failure noBraceText (Or.inl (by decide))⟩

/-- C4, as stated, is false of the code: a non-success status does make
`get_ai_recommendation` fail without touching the body, but the failure is
the bare value `None`, which cannot carry the status code — the failures
for status 500 and status 404 are one and the same value. -/
theorem c4_counterexample :
    get_ai_recommendation (AIOutcome.response 500 (AIBody.text sampleOkText)) = none ∧
    get_ai_recommendation (AIOutcome.response 404 (AIBody.text noBraceText)) = none ∧
    get_ai_recommendation (AIOutcome.response 500 (AIBody.text sampleOkText)) =
      get_ai_recommendation (AIOutcome.response 404 (AIBody.text noBraceText)) :=
  ⟨rfl, rfl, rfl⟩

/-- C4 amended: for every non-success HTTP status and every body,
`get_ai_recommendation` fails with the status-less failure value `None`
and performs no JSON extraction on the body (the result is `None`
independently of the body). -/
theorem c4_non_success_no_extraction (status : Nat) (body : AIBody) (h : status ≠ 200) :
    get_ai_recommendation (AIOutcome.response status body) = none := by
  simp [get_ai_recommendation, h]

/-- Witness for C4's amended theorem at an HTTP 500 response. -/
theorem c4_non_success_no_extraction_witness :
    (500 ≠ 200) ∧
    get_ai_recommendation (AIOutcome.response 500 (AIBody.text sampleOkText)) = none :=
  ⟨by decide, c4_non_success_no_extraction 500 (AIBody.text sampleOkText) (by decide)⟩

/-- C5: for each of the three catalog moods, the note lookup succeeds with
exactly 4 top, 4 middle and 4 base notes, and the lookup is deterministic
(repeated lookups agree). -/
theorem c5_notes_for (mood : String)
    (h : mood = ("relaxed") ∨ mood = ("energized") ∨ mood = ("romantic")) :
    ∃ ns : NoteSet, FRAGRANCE_NOTES mood = some ns ∧
      ns.top.length = 4 ∧ ns.middle.length = 4 ∧ ns.base.length = 4 ∧
      ∀ ns2 : NoteSet, FRAGRANCE_NOTES mood = some ns2 → ns2 = ns := by
  rcases h with h | h | h <;> subst h <;>
    exact ⟨_, rfl, rfl, rfl, rfl, fun ns2 h2 => (Option.some.inj h2).symm⟩

/-- Witness for C5 at the mood `relaxed`. -/
theorem c5_notes_for_witness :
    (("relaxed" : String) = ("relaxed") ∨ ("relaxed" : String) = ("energized") ∨
      ("relaxed" : String) = ("romantic")) ∧
    ∃ ns : NoteSet, FRAGRANCE_NOTES ("relaxed") = some ns ∧
      ns.top.length = 4 ∧ ns.middle.length = 4 ∧ ns.base.length = 4 ∧
      ∀ ns2 : NoteSet, FRAGRANCE_NOTES ("relaxed") = some ns2 → ns2 = ns :=
  ⟨Or.inl rfl, c5_notes_for ("relaxed") (Or.inl rfl)⟩

/-- C6: for a generated recommendation carrying the four rendered fields,
the handler's view shows the recommendation and offers the download
independently of the save outcome; `save_to_supabase` converts a transport
error or a remote rejection into the failure signal `False`, and the
displayed record is unaffected. -/
theorem c6_save_failure_keeps_display (mood pt : String) (fs : List (String × JVal))
    (o : SaveOutcome) (now : Nat)
    (h1 : (List.lookup ("name") fs).isSome = true)
    (h2 : (List.lookup ("description") fs).isSome = true)
    (h3 : (List.lookup ("blend_formula") fs).isSome = true)
    (h4 : (List.lookup ("best_time") fs).isSome = true) :
    generate_handler mood pt (some (JVal.jobj fs)) o now =
      some { displayed := some fs
             saved_msg := save_to_supabase (data_to_save mood pt fs) now o
             download := some (data_to_save mood pt fs) } ∧
    save_to_supabase (data_to_save mood pt fs) now SaveOutcome.transportError = false ∧
    save_to_supabase (data_to_save mood pt fs) now SaveOutcome.remoteRejection = false := by
  have hfs : fs ≠ [] := by
    intro e
    subst e
    simp [List.lookup] at h1
  have htr : optTruthy (some (JVal.jobj fs)) = true := by
    cases fs with
    | nil => exact absurd rfl hfs
    | cons a l => rfl
  obtain ⟨row, hrow⟩ := Option.isSome_iff_exists.mp
    (insert_row_isSome mood pt fs now h1 h2 h3 h4)
  refine ⟨?_, ?_, ?_⟩
  · simp [generate_handler, htr, h1, h2, h3, h4]
  · simp [save_to_supabase, hrow]
  · simp [save_to_supabase, hrow]

/-- Witness for C6: a transport failure during save leaves the generated
record displayed and downloadable. -/
theorem c6_save_failure_keeps_display_witness :
    ((List.lookup ("name") demoFields).isSome = true) ∧
    generate_handler ("relaxed") ("candle") (some (JVal.jobj demoFields))
        SaveOutcome.transportError 0 =
      some { displayed := some demoFields
             saved_msg := save_to_supabase (data_to_save ("relaxed") ("candle") demoFields) 0
               SaveOutcome.transportError
             download := some (data_to_save ("relaxed") ("candle") demoFields) } :=
  ⟨rfl, (c6_save_failure_keeps_display ("relaxed") ("candle") demoFields
    SaveOutcome.transportError 0 rfl rfl rfl rfl).1⟩

/-- C7: for every store state and limit, `recent` returns at most `limit`
rows, adjacent rows are ordered by `created_at` descending, and the
history panel requests limit 5. -/
theorem c7_recent_ordered_limited (store : List HistoryRow) (limit : Nat) :
    (recent store limit).length ≤ limit ∧
    List.Chain' (fun a b => b.created_at ≤ a.created_at) (recent store limit) ∧
    fetch_history store = recent store 5 := by
  refine ⟨?_, ?_, rfl⟩
  · simp only [recent, List.length_take]
    omega
  · have hs : List.Sorted createdDescRel (List.insertionSort createdDescRel store) :=
      List.sorted_insertionSort createdDescRel store
    have ht : List.Pairwise createdDescRel (recent store limit) :=
      List.Pairwise.sublist (List.take_sublist limit _) hs
    exact ht.chain'

/-- C8: the history panel never surfaces a failure: a failed fetch and an
empty result produce the identical empty-history info box, and every
outcome is rendered either as that info box or as a nonempty entry list. -/
theorem c8_history_soft_empty :
    history_panel FetchOutcome.failure = HistoryDisplay.emptyInfo ∧
    history_panel (FetchOutcome.rows []) = HistoryDisplay.emptyInfo ∧
    history_panel FetchOutcome.failure = history_panel (FetchOutcome.rows []) ∧
    ∀ o : FetchOutcome, history_panel o = HistoryDisplay.emptyInfo ∨
      ∃ items, items ≠ [] ∧ history_panel o = HistoryDisplay.entries items := by
  refine ⟨rfl, rfl, rfl, ?_⟩
  intro o
  cases o with
  | failure => exact Or.inl rfl
  | rows data =>
    cases data with
    | nil => exact Or.inl rfl
    | cons r rest => exact Or.inr ⟨r :: rest, by simp, rfl⟩

/-- C9: `get_ai_recommendation` is total over its failure modes: a
connection error, a non-200 status, an unparsable response body, a missing
response structure, and a failing candidate extraction all return the
single failure value `None` instead of propagating an exception. -/
theorem c9_failures_return_none (o : AIOutcome)
    (h : o = AIOutcome.connectionError ∨
         (∃ s b, o = AIOutcome.response s b ∧ s ≠ 200) ∨
         (∃ s, o = AIOutcome.response s AIBody.notJson) ∨
         (∃ s, o = AIOutcome.response s AIBody.badShape) ∨
         (∃ t, o = AIOutcome.response 200 (AIBody.text t) ∧ extract_json t = none)) :
    get_ai_recommendation o = none := by
  rcases h with h | ⟨s, b, h, hs⟩ | ⟨s, h⟩ | ⟨s, h⟩ | ⟨t, h, ht⟩ <;> subst h
  · rfl
  · simp [get_ai_recommendation, hs]
  · by_cases hs : s = 200
    · subst hs; rfl
    · simp [get_ai_recommendation, hs]
  · by_cases hs : s = 200
    · subst hs; rfl
    · simp [get_ai_recommendation, hs]
  · simpa [get_ai_recommendation] using ht

/-- Witness for C9 at a connection error. -/
theorem c9_failures_return_none_witness :
    (AIOutcome.connectionError = AIOutcome.connectionError ∨
      (∃ s b, AIOutcome.connectionError = AIOutcome.response s b ∧ s ≠ 200) ∨
      (∃ s, AIOutcome.connectionError = AIOutcome.response s AIBody.notJson) ∨
      (∃ s, AIOutcome.connectionError = AIOutcome.response s AIBody.badShape) ∨
      (∃ t, AIOutcome.connectionError = AIOutcome.response 200 (AIBody.text t) ∧
        extract_json t = none)) ∧
    get_ai_recommendation AIOutcome.connectionError = none :=
  ⟨Or.inl rfl, c9_failures_return_none AIOutcome.connectionError (Or.inl rfl)⟩

/-- C10: because the merged record places the AI recommendation's entries
after the user selections, an AI-supplied `mood` or `product_type` value
overrides the user's, both in the record that is persisted and offered for
download and in the row built for the insert. -/
theorem c10_ai_overrides_user (mood pt : String) (fs : List (String × JVal))
    (hnd : (fs.map Prod.fst).Nodup) :
    (∀ v : JVal, (("mood"), v) ∈ fs →
        List.lookup ("mood") (data_to_save mood pt fs) = some v) ∧
    (∀ w : JVal, (("product_type"), w) ∈ fs →
        List.lookup ("product_type") (data_to_save mood pt fs) = some w) ∧
    (∀ (v : JVal) (now : Nat) (row : SavedRow), (("mood"), v) ∈ fs →
        insert_row (data_to_save mood pt fs) now = some row → row.mood = v) := by
  refine ⟨?_, ?_, ?_⟩
  · intro v hv
    exact lookup_dictExtend_mem fs _ _ v hnd hv
  · intro w hw
    exact lookup_dictExtend_mem fs _ _ w hnd hw
  · intro v now row hv hrow
    have hm : List.lookup ("mood") (data_to_save mood pt fs) = some v :=
      lookup_dictExtend_mem fs _ ("mood") v hnd hv
    have hr := insert_row_mood _ _ _ hrow
    rw [hm] at hr
    exact (Option.some.inj hr).symm

/-- Witness for C10: an AI record carrying `mood = custom` wins over the
user's selected mood in the merged record. -/
theorem c10_ai_overrides_user_witness :
    ((demoOverrideFields.map Prod.fst).Nodup) ∧
    List.lookup ("mood") (data_to_save ("relaxed") ("candle") demoOverrideFields) =
      some (JVal.jstr ("custom")) :=
  ⟨by decide, (c10_ai_overrides_user ("relaxed") ("candle") demoOverrideFields
    (by decide)).1 (JVal.jstr ("custom")) (List.mem_cons_self _ _)⟩

end ScentApp
